import Mathlib

/-!
Verification of the drs4-dsbs acquisition/control layer.

The development shallowly embeds `src/drs4_dsbs/dsbs.py` (functions
`download`, `measure`, `output`) and the merge step of
`src/samples/single_channel.py`.  Python floats are modelled as exact
rationals (`ℚ`); CSV cell values are modelled as exact decimal numerals
(`Dec`, with meaning function `Dec.toRat`); remote-shell and
signal-generator side effects are modelled by returning the sequence of
commands a call issues, so `Except.error` means the call failed before
issuing the remaining commands.
-/

namespace Drs4

/-- Decidable equality for `Except`, so concrete runs of the embedded
functions can be checked by `decide`. -/
instance {ε α : Type} [DecidableEq ε] [DecidableEq α] : DecidableEq (Except ε α) := fun x y =>
  match x, y with
  | .ok a, .ok b => if h : a = b then .isTrue (by rw [h]) else .isFalse (by simp [h])
  | .error a, .error b => if h : a = b then .isTrue (by rw [h]) else .isFalse (by simp [h])
  | .ok _, .error _ => .isFalse (by simp)
  | .error _, .ok _ => .isFalse (by simp)

/-- Constant `FREQ_INTERVAL = 0.02` (GHz), dsbs.py line 22. -/
def FREQ_INTERVAL : ℚ := 0.02

/-- Commands understood by the signal generator (Keysight 8257D), as
issued by `output` (dsbs.py lines 283-293).  `freqCW f` stands for the
command string `FREQ:CW {f}GHZ` carrying the planned frequency `f`. -/
inductive SGCommand where
  | outpOff : SGCommand
  | freqModeCW : SGCommand
  | freqCW : ℚ → SGCommand
  | outpOn : SGCommand
deriving DecidableEq

/-- Modelled from the spec: `send_commands` lives in
`src/drs4_dsbs/scpi.py`, which is code of this repository not present
under `src/`.  Per spec section 4.2 the client writes each command of the
list in order over one connection and consumes no responses, so the wire
sequence is exactly the input list. -/
def send_commands (cmds : List SGCommand) : List SGCommand :=
  cmds

/-- The sideband frequency computation of `output` (dsbs.py lines
276-281): `(LO_freq ± FREQ_INTERVAL·signal_chan) / LO_mux` for USB/LSB,
and a `ValueError` (the spec's `InvalidSidebandError`) for any other
sideband string. -/
def SG_freq (signal_SB : String) (signal_chan : ℤ) (LO_freq : ℚ) (LO_mux : ℤ) :
    Except String ℚ :=
  if signal_SB = "USB" then
    .ok ((LO_freq + FREQ_INTERVAL * signal_chan) / LO_mux)
  else if signal_SB = "LSB" then
    .ok ((LO_freq - FREQ_INTERVAL * signal_chan) / LO_mux)
  else
    .error "Signal sideband must be either USB|LSB."

/-- `output` (dsbs.py lines 247-293): plan the generator frequency, then
send the four-command sequence.  The returned list is the command
sequence sent to the generator; on error no command is sent. -/
def output (signal_chan : ℤ) (signal_SB : String) (LO_freq : ℚ) (LO_mux : ℤ) :
    Except String (List SGCommand) :=
  match SG_freq signal_SB signal_chan LO_freq LO_mux with
  | .error e => .error e
  | .ok f => .ok (send_commands [.outpOff, .freqModeCW, .freqCW f, .outpOn])

/-- Explicit connection arguments of `download`/`measure` (Python
`Optional[str]`, default `None`). -/
structure ConnArgs where
  user : Option String
  host : Option String
  password : Option String
deriving DecidableEq

/-- Environment variables `DRS4_USER`, `DRS4_HOST`, `DRS4_PASSWORD`
(`None` when unset). -/
structure EnvVars where
  DRS4_USER : Option String
  DRS4_HOST : Option String
  DRS4_PASSWORD : Option String
deriving DecidableEq

/-- Python `arg or getenv(VAR)`: `None` and the empty string are falsy,
so both fall back to the environment variable; any non-empty string is
kept. -/
def orEnv (arg env : Option String) : Option String :=
  match arg with
  | none => env
  | some s => if s = "" then env else some s

/-- Credential resolution of `download` (dsbs.py lines 159-161) and
`measure` (lines 223-225): each of user/host/password is resolved by
`arg or getenv(VAR)`. -/
def resolveConn (a : ConnArgs) (e : EnvVars) : ConnArgs :=
  ⟨orEnv a.user e.DRS4_USER, orEnv a.host e.DRS4_HOST, orEnv a.password e.DRS4_PASSWORD⟩

/-- Python f-string rendering of an `Optional[str]` (`None` renders as
the string `None`). -/
def showOpt : Option String → String
  | none => "None"
  | some s => s

/-- One remote-shell invocation `ssh {user}@{host} -p {password} {cmd}`
as issued by `run` in `download`/`measure`. -/
structure RemoteInvocation where
  user : String
  host : String
  password : String
  cmd : String
deriving DecidableEq

/-- The three-step command chain composed by `measure` (dsbs.py lines
230-236) before being joined with `;`. -/
def measureChain (user : String) (input_num integ_time : ℕ) : List String :=
  [s!"cd /home/{user}/DRS4/cmd",
   s!"./set_intg_time.py --In {input_num} --It {integ_time / 100}",
   s!"./get_corr_rslt.py --In {input_num}"]

/-- `measure` (dsbs.py lines 198-244): resolve credentials, validate
`integ_time` (raising `ValueError`, the spec's `ConfigurationError`,
for any value outside {100,200,500,1000}), then issue one remote-shell
invocation carrying the `;`-joined command chain.  The returned list is
the sequence of remote invocations executed; on error none is executed. -/
def measure (a : ConnArgs) (e : EnvVars) (input_num integ_time : ℕ) :
    Except String (List RemoteInvocation) :=
  let c := resolveConn a e
  if integ_time = 100 ∨ integ_time = 200 ∨ integ_time = 500 ∨ integ_time = 1000 then
    .ok [⟨showOpt c.user, showOpt c.host, showOpt c.password,
          String.intercalate ";" (measureChain (showOpt c.user) input_num integ_time)⟩]
  else
    .error "Integration time must be either 100|200|500|1000."

/-- Split a character list at every occurrence of `c` (the CSV/line
splitting primitive underlying `pd.read_csv`). -/
def splitOnChar (c : Char) : List Char → List (List Char)
  | [] => [[]]
  | x :: xs =>
    let r := splitOnChar c xs
    if x = c then [] :: r
    else
      match r with
      | [] => [[x]]
      | y :: ys => (x :: y) :: ys

/-- A parsed CSV table: a header row of column names and the data rows,
each a list of cells (`pd.read_csv` with default options; blank lines
are skipped). -/
structure Table where
  header : List (List Char)
  rows : List (List (List Char))
deriving DecidableEq

/-- `pd.read_csv` on the captured text (dsbs.py lines 181-182): first
non-blank line is the header, remaining non-blank lines are data rows;
empty input is an error (`EmptyDataError`). -/
def read_csv (s : String) : Option Table :=
  match (splitOnChar '\n' s.data).filter (fun l => l ≠ []) with
  | [] => none
  | h :: rs => some ⟨splitOnChar ',' h, rs.map (splitOnChar ',')⟩

/-- An exact decimal numeral `mant / 10^dexp`, the model of a numeric
CSV cell as parsed by pandas (the CSVs hold decimal literals). -/
structure Dec where
  mant : ℤ
  dexp : ℕ
deriving DecidableEq

/-- Rational value of a decimal numeral. -/
def Dec.toRat (d : Dec) : ℚ :=
  (d.mant : ℚ) / 10 ^ d.dexp

/-- Parse an unsigned digit string. -/
def parseNatDigits : List Char → Option ℕ
  | [] => none
  | [c] => if c.isDigit then some (c.toNat - 48) else none
  | c :: cs =>
    match parseNatDigits cs, (if c.isDigit then some (c.toNat - 48) else none) with
    | some n, some d => some (d * 10 ^ cs.length + n)
    | _, _ => none

/-- Parse a decimal cell: optional leading minus, digits, optional
fractional part.  Anything else is a non-numeric cell (`DecodeError`). -/
def parseDec (s : List Char) : Option Dec :=
  let (sgn, t) : ℤ × List Char :=
    match s with
    | c :: cs => if c = '-' then (-1, cs) else (1, s)
    | [] => (1, s)
  match splitOnChar '.' t with
  | [i] => (parseNatDigits i).map (fun n => ⟨sgn * n, 0⟩)
  | [i, f] =>
    match parseNatDigits i, parseNatDigits f with
    | some ni, some nf => some ⟨sgn * (ni * 10 ^ f.length + nf), f.length⟩
    | _, _ => none
  | _ => none

/-- Evaluate `f` over a list, failing if any element fails (the shape of
a column read). -/
def mapOpt (f : α → Option β) : List α → Option (List β)
  | [] => some []
  | x :: xs =>
    match f x, mapOpt f xs with
    | some y, some ys => some (y :: ys)
    | _, _ => none

/-- `df[name]`: look up the column position in the header and collect
that cell from every row; a missing column is a `KeyError` (the spec's
`SchemaMismatchError` naming the column). -/
def getCol (t : Table) (name : String) : Except String (List (List Char))  :=
  match t.header.findIdx? (fun h => h = name.data) with
  | none => .error ("KeyError: " ++ name)
  | some i =>
    match mapOpt (fun r => r.get? i) t.rows with
    | none => .error ("KeyError: " ++ name)
    | some col => .ok col

/-- A numeric column: `df[name]` with every cell parsed as a decimal. -/
def numCol (t : Table) (name : String) : Except String (List Dec) :=
  match getCol t name with
  | .error e => .error e
  | .ok col =>
    match mapOpt parseDec col with
    | none => .error ("could not convert column to numeric: " ++ name)
    | some vals => .ok vals

/-- The decoded parallel column arrays of one `download` call:
frequencies, the two auto-correlations (power table) and the complex
cross-correlation rows (phase table), each entry `(re, im)` standing for
`re + j·im` as built on dsbs.py line 192. -/
structure ColumnSet where
  freq : List Dec
  auto_USB : List Dec
  auto_LSB : List Dec
  cross_2SB : List (Dec × Dec)
deriving DecidableEq

/-- The CSV-to-columns step of `download` (dsbs.py lines 181-192): parse
both payloads, read columns `freq[GHz]`, `out0`, `out1` from the power
table and `real`, `imag` from the phase table, and pair the latter two
into the complex cross-correlation.  Both parsed tables are returned
with the columns. -/
def decodeColumns (power_csv phase_csv : String) :
    Except String (Table × Table × ColumnSet) :=
  match read_csv power_csv with
  | none => .error "EmptyDataError: power csv"
  | some df_autos =>
    match read_csv phase_csv with
    | none => .error "EmptyDataError: phase csv"
    | some df_cross =>
      (numCol df_autos "freq[GHz]").bind fun freq =>
      (numCol df_autos "out0").bind fun out0 =>
      (numCol df_autos "out1").bind fun out1 =>
      (numCol df_cross "real").bind fun re =>
      (numCol df_cross "imag").bind fun im =>
      .ok (df_autos, df_cross, ⟨freq, out0, out1, List.zipWith Prod.mk re im⟩)

/-- One measurement record, the shallow model of the `DSBS` dataset
(dsbs.py lines 88-124): scalar time and acquisition metadata plus the
per-channel columns.  Time stamps are abstracted to naturals. -/
structure DSBS where
  time : ℕ
  chan : List ℕ
  signal_chan : ℤ
  signal_SB : String
  freq : List Dec
  auto_USB : List Dec
  auto_LSB : List Dec
  cross_2SB : List (Dec × Dec)
  input_num : ℕ
  integ_time : ℕ
deriving DecidableEq

/-- Dataset construction `DSBS.new` (dsbs.py lines 184-195).  The
labeled-dataset machinery validates that every `chan`-dimensioned field
has the length of the `chan` coordinate; that validation lives in the
external dataset library, so its failure mode is modelled from the
spec: mismatched row counts surface as a `SchemaMismatchError` rather
than being truncated (spec sections 4.4 and 9). -/
def DSBS.new (time : ℕ) (chan : List ℕ) (signal_chan : ℤ) (signal_SB : String)
    (freq auto_USB auto_LSB : List Dec) (cross_2SB : List (Dec × Dec))
    (input_num integ_time : ℕ) : Except String DSBS :=
  if freq.length = chan.length ∧ auto_USB.length = chan.length ∧
      auto_LSB.length = chan.length ∧ cross_2SB.length = chan.length then
    .ok ⟨time, chan, signal_chan, signal_SB, freq, auto_USB, auto_LSB, cross_2SB,
         input_num, integ_time⟩
  else
    .error "SchemaMismatchError: conflicting sizes for dimension chan"

/-- The two fetch invocations of `download` (dsbs.py lines 163-179):
`cat` of the power output file then of the phase output file. -/
def fetchInvs (c : ConnArgs) : List RemoteInvocation :=
  let u := showOpt c.user
  [⟨u, showOpt c.host, showOpt c.password, s!"cat /home/{u}/DRS4/mrdsppy/output/new_pow.csv"⟩,
   ⟨u, showOpt c.host, showOpt c.password, s!"cat /home/{u}/DRS4/mrdsppy/output/new_phase.csv"⟩]

/-- `download` (dsbs.py lines 127-195): resolve credentials, fetch the
two CSV payloads with two `cat` invocations (the payloads are passed in
as the current remote state), decode them and assemble the dataset with
`chan = np.arange(len(df_autos))`.  Returns the remote invocations
issued together with the record. -/
def download (a : ConnArgs) (e : EnvVars) (now : ℕ) (power_csv phase_csv : String)
    (signal_chan : ℤ) (signal_SB : String) (input_num integ_time : ℕ) :
    Except String (List RemoteInvocation × DSBS) :=
  let c := resolveConn a e
  let invs := fetchInvs c
  match decodeColumns power_csv phase_csv with
  | .error err => .error err
  | .ok (df_autos, _df_cross, cs) =>
    match DSBS.new now (List.range df_autos.rows.length) signal_chan signal_SB
        cs.freq cs.auto_USB cs.auto_LSB cs.cross_2SB input_num integ_time with
    | .error err => .error err
    | .ok ds => .ok (invs, ds)

/-- The two-sideband pair after concatenation along `time`
(`xr.concat([ds_usb, ds_lsb], "time")`): per-time lists of the scalar
coordinates and of the per-channel columns, over an unchanged `chan`. -/
structure AcquisitionPair where
  time : List ℕ
  chan : List ℕ
  signal_chan : List ℤ
  signal_SB : List String
  freq : List (List Dec)
  auto_USB : List (List Dec)
  auto_LSB : List (List Dec)
  cross_2SB : List (List (Dec × Dec))
  input_num : ℕ
  integ_time : ℕ
deriving DecidableEq

/-- Modelled from the spec: the orchestrator's terminal `Merging` state.
The repository delegates merging to an external concatenation
(samples/single_channel.py line 52), so the validation described in the
spec is not code under `src/`; per spec sections 4.6 and 8 the merge
requires both records to share `signal_chan`, `input_num`, `integ_time`
and `chan` length, fails with `MergeError` otherwise, and on success
concatenates the two records along `time`. -/
def mergeRecords (a b : DSBS) : Except String AcquisitionPair :=
  if a.signal_chan = b.signal_chan ∧ a.input_num = b.input_num ∧
      a.integ_time = b.integ_time ∧ a.chan.length = b.chan.length then
    .ok ⟨[a.time, b.time], a.chan, [a.signal_chan, b.signal_chan],
         [a.signal_SB, b.signal_SB], [a.freq, b.freq], [a.auto_USB, b.auto_USB],
         [a.auto_LSB, b.auto_LSB], [a.cross_2SB, b.cross_2SB],
         a.input_num, a.integ_time⟩
  else
    .error "MergeError"

/-! ## Helper lemmas -/

theorem mapOpt_length {α β : Type} {f : α → Option β} :
    ∀ {l : List α} {r : List β}, mapOpt f l = some r → r.length = l.length := by
  intro l
  induction l with
  | nil =>
    intro r h
    simp [mapOpt] at h
    simp [← h]
  | cons x xs ih =>
    intro r h
    simp only [mapOpt] at h
    cases hf : f x with
    | none => rw [hf] at h; simp at h
    | some y =>
      rw [hf] at h
      cases hm : mapOpt f xs with
      | none => rw [hm] at h; simp at h
      | some ys =>
        rw [hm] at h
        simp only [Option.some.injEq] at h
        subst h
        simp [ih hm]

theorem getCol_length {t : Table} {name : String} {col : List (List Char)}
    (h : getCol t name = .ok col) : col.length = t.rows.length := by
  unfold getCol at h
  split at h
  · exact absurd h (by simp)
  · split at h
    · exact absurd h (by simp)
    · rename_i hm
      simp only [Except.ok.injEq] at h
      subst h
      exact mapOpt_length hm

theorem numCol_length {t : Table} {name : String} {vals : List Dec}
    (h : numCol t name = .ok vals) : vals.length = t.rows.length := by
  unfold numCol at h
  split at h
  · exact absurd h (by simp)
  · rename_i col hcol
    split at h
    · exact absurd h (by simp)
    · rename_i hm
      simp only [Except.ok.injEq] at h
      subst h
      exact (mapOpt_length hm).trans (getCol_length hcol)

theorem decodeColumns_ok {p q : String} {ta tc : Table} {cs : ColumnSet}
    (h : decodeColumns p q = .ok (ta, tc, cs)) :
    read_csv p = some ta ∧ read_csv q = some tc ∧
    numCol ta "freq[GHz]" = .ok cs.freq ∧ numCol ta "out0" = .ok cs.auto_USB ∧
    numCol ta "out1" = .ok cs.auto_LSB ∧
    (∃ re im, numCol tc "real" = .ok re ∧ numCol tc "imag" = .ok im ∧
      cs.cross_2SB = List.zipWith Prod.mk re im) ∧
    cs.freq.length = ta.rows.length ∧ cs.auto_USB.length = ta.rows.length ∧
    cs.auto_LSB.length = ta.rows.length ∧ cs.cross_2SB.length = tc.rows.length := by
  unfold decodeColumns at h
  cases hp : read_csv p with
  | none => rw [hp] at h; exact absurd h (by simp)
  | some dfa =>
    rw [hp] at h
    cases hq : read_csv q with
    | none => rw [hq] at h; exact absurd h (by simp)
    | some dfc =>
      rw [hq] at h
      dsimp only at h
      cases hf : numCol dfa "freq[GHz]" with
      | error e => rw [hf] at h; exact absurd h (by simp [Except.bind])
      | ok freq =>
        rw [hf] at h
        cases h0 : numCol dfa "out0" with
        | error e => rw [h0] at h; exact absurd h (by simp [Except.bind])
        | ok out0 =>
          rw [h0] at h
          cases h1 : numCol dfa "out1" with
          | error e => rw [h1] at h; exact absurd h (by simp [Except.bind])
          | ok out1 =>
            rw [h1] at h
            cases hre : numCol dfc "real" with
            | error e => rw [hre] at h; exact absurd h (by simp [Except.bind])
            | ok re =>
              rw [hre] at h
              cases him : numCol dfc "imag" with
              | error e => rw [him] at h; exact absurd h (by simp [Except.bind])
              | ok im =>
                rw [him] at h
                simp only [Except.bind, Except.ok.injEq, Prod.mk.injEq] at h
                obtain ⟨hta, htc, hcs⟩ := h
                subst hta
                subst htc
                subst hcs
                refine ⟨rfl, rfl, hf, h0, h1, ⟨re, im, hre, him, rfl⟩,
                  numCol_length hf, numCol_length h0, numCol_length h1, ?_⟩
                simp [List.length_zipWith, numCol_length hre, numCol_length him]

/-! ## Claim theorems -/

/-- C1: for every `LO_freq`, `LO_mux > 0`, `signal_chan ≥ 0`, the planner
returns `(LO_freq + 0.02·signal_chan)/LO_mux` for USB and
`(LO_freq − 0.02·signal_chan)/LO_mux` for LSB. -/
theorem planner_formula (LO_freq : ℚ) (LO_mux signal_chan : ℤ)
    (hmux : 0 < LO_mux) (hchan : 0 ≤ signal_chan) :
    SG_freq "USB" signal_chan LO_freq LO_mux =
      .ok ((LO_freq + 0.02 * signal_chan) / LO_mux) ∧
    SG_freq "LSB" signal_chan LO_freq LO_mux =
      .ok ((LO_freq - 0.02 * signal_chan) / LO_mux) := by
  constructor <;> simp [SG_freq, FREQ_INTERVAL]

/-- C1 witness: `LO_freq = 90.0`, `LO_mux = 5`, `signal_chan = 10` yields
18.04 GHz for USB and 17.96 GHz for LSB. -/
theorem planner_formula_witness :
    SG_freq "USB" 10 90.0 5 = .ok 18.04 ∧ SG_freq "LSB" 10 90.0 5 = .ok 17.96 := by
  obtain ⟨h1, h2⟩ := planner_formula 90.0 5 10 (by norm_num) (by norm_num)
  constructor
  · rw [h1]; simp only [Except.ok.injEq]; norm_num
  · rw [h2]; simp only [Except.ok.injEq]; norm_num

/-- C7: the planned USB and LSB generator frequencies sum to
`2·LO_freq/LO_mux` (symmetry around the LO). -/
theorem planner_symmetry (LO_freq : ℚ) (LO_mux signal_chan : ℤ)
    (hmux : 0 < LO_mux) (hchan : 0 ≤ signal_chan) :
    ∀ fU fL : ℚ, SG_freq "USB" signal_chan LO_freq LO_mux = .ok fU →
      SG_freq "LSB" signal_chan LO_freq LO_mux = .ok fL →
      fU + fL = 2 * LO_freq / LO_mux := by
  intro fU fL hU hL
  simp only [SG_freq, reduceIte, Except.ok.injEq, String.reduceEq] at hU hL
  rw [← hU, ← hL, div_add_div_same]
  ring_nf

/-- C7 witness: at `LO_freq = 90.0`, `LO_mux = 5`, `signal_chan = 10` the
two planned frequencies 18.04 and 17.96 sum to `2·90.0/5 = 36`. -/
theorem planner_symmetry_witness : (18.04 : ℚ) + 17.96 = 2 * 90.0 / 5 :=
  planner_symmetry 90.0 5 10 (by norm_num) (by norm_num) 18.04 17.96
    (by simp only [SG_freq, reduceIte, Except.ok.injEq, String.reduceEq, FREQ_INTERVAL]
        norm_num)
    (by simp only [SG_freq, reduceIte, Except.ok.injEq, String.reduceEq, FREQ_INTERVAL]
        norm_num)

/-- C8: any sideband value outside {USB, LSB} makes `output` fail with
the invalid-sideband error before any generator command is sent (the
`.error` result carries no command list). -/
theorem output_invalid_sideband (signal_chan : ℤ) (sb : String) (LO_freq : ℚ)
    (LO_mux : ℤ) (h1 : sb ≠ "USB") (h2 : sb ≠ "LSB") :
    output signal_chan sb LO_freq LO_mux =
      .error "Signal sideband must be either USB|LSB." := by
  simp [output, SG_freq, h1, h2]

/-- C8 witness: the sideband string `2SB` fails. -/
theorem output_invalid_sideband_witness :
    output 0 "2SB" 90.0 5 = .error "Signal sideband must be either USB|LSB." :=
  output_invalid_sideband 0 "2SB" 90.0 5 (by decide) (by decide)

/-- C9: every successful `output` call sends exactly, in order: disable
output, select CW mode, set the planned frequency (the `FREQ:CW {f}GHZ`
command), enable output. -/
theorem output_command_sequence (signal_chan : ℤ) (sb : String) (LO_freq : ℚ)
    (LO_mux : ℤ) (h : sb = "USB" ∨ sb = "LSB") :
    ∃ f, SG_freq sb signal_chan LO_freq LO_mux = .ok f ∧
      output signal_chan sb LO_freq LO_mux =
        .ok [.outpOff, .freqModeCW, .freqCW f, .outpOn] := by
  rcases h with h | h <;> subst h
  · exact ⟨_, rfl, rfl⟩
  · exact ⟨_, rfl, rfl⟩

/-- C9 witness: a successful USB call at the defaults. -/
theorem output_command_sequence_witness :
    ∃ f, SG_freq "USB" 0 90.0 5 = .ok f ∧
      output 0 "USB" 90.0 5 = .ok [.outpOff, .freqModeCW, .freqCW f, .outpOn] :=
  output_command_sequence 0 "USB" 90.0 5 (Or.inl rfl)

/-- C3: `measure` fails with the configuration error for every
`integ_time` outside {100, 200, 500, 1000} — the `.error` result means no
remote invocation was issued — and raises no such error inside the set. -/
theorem measure_validates_integ_time (a : ConnArgs) (e : EnvVars)
    (input_num integ_time : ℕ) :
    (integ_time ∉ ([100, 200, 500, 1000] : List ℕ) →
      measure a e input_num integ_time =
        .error "Integration time must be either 100|200|500|1000.") ∧
    (integ_time ∈ ([100, 200, 500, 1000] : List ℕ) →
      ∃ invs, measure a e input_num integ_time = .ok invs) := by
  constructor
  · intro h
    simp only [List.mem_cons, List.not_mem_nil, or_false] at h
    push_neg at h
    obtain ⟨n1, n2, n3, n4⟩ := h
    simp [measure, n1, n2, n3, n4]
  · intro h
    simp only [List.mem_cons, List.not_mem_nil, or_false] at h
    exact ⟨[⟨showOpt (resolveConn a e).user, showOpt (resolveConn a e).host,
             showOpt (resolveConn a e).password,
             String.intercalate ";"
               (measureChain (showOpt (resolveConn a e).user) input_num integ_time)⟩],
           by simp [measure, h]⟩

/-- C3 witness: `integ_time = 300` fails with no remote command executed,
`integ_time = 500` raises no such error. -/
theorem measure_validates_integ_time_witness :
    measure ⟨none, none, none⟩ ⟨none, none, none⟩ 1 300 =
      .error "Integration time must be either 100|200|500|1000." ∧
    ∃ invs, measure ⟨none, none, none⟩ ⟨none, none, none⟩ 1 500 = .ok invs :=
  ⟨(measure_validates_integ_time ⟨none, none, none⟩ ⟨none, none, none⟩ 1 300).1 (by decide),
   (measure_validates_integ_time ⟨none, none, none⟩ ⟨none, none, none⟩ 1 500).2 (by decide)⟩

/-- C4: for every valid `integ_time`, `measure` issues exactly one
remote-shell invocation whose command is the `;`-join of exactly three
steps in order: `cd` to the fixed command directory, the
integration-time-setting command with `--In input_num --It
integ_time/100`, and the correlation-result command with
`--In input_num`. -/
theorem measure_command_chain (a : ConnArgs) (e : EnvVars) (input_num integ_time : ℕ)
    (h : integ_time ∈ ([100, 200, 500, 1000] : List ℕ)) :
    measure a e input_num integ_time =
      .ok [⟨showOpt (resolveConn a e).user, showOpt (resolveConn a e).host,
            showOpt (resolveConn a e).password,
            String.intercalate ";"
              ["cd /home/" ++ showOpt (resolveConn a e).user ++ "/DRS4/cmd",
               "./set_intg_time.py --In " ++ toString input_num ++ " --It " ++
                 toString (integ_time / 100),
               "./get_corr_rslt.py --In " ++ toString input_num]⟩] := by
  simp only [List.mem_cons, List.not_mem_nil, or_false] at h
  simp [measure, measureChain, h, String.append_empty, toString]

/-- C4 witness: for `input_num = 2`, `integ_time = 500` the `--It`
parameter in the issued chain equals 5. -/
theorem measure_command_chain_witness :
    measure ⟨some "u", some "h", some "p"⟩ ⟨none, none, none⟩ 2 500 =
      .ok [⟨"u", "h", "p",
            "cd /home/u/DRS4/cmd;./set_intg_time.py --In 2 --It 5;./get_corr_rslt.py --In 2"⟩] := by
  have h := measure_command_chain ⟨some "u", some "h", some "p"⟩ ⟨none, none, none⟩ 2 500
    (by decide)
  rw [h]
  decide

/-- C10: in `download` and `measure` an explicit empty-string user, host
or password is falsy in the Python `arg or getenv(...)` resolution, so it
falls back to the corresponding environment variable exactly like an
absent argument, and only a non-empty argument takes precedence. -/
theorem empty_string_credentials_fall_back (e : EnvVars) :
    (resolveConn ⟨some "", some "", some ""⟩ e =
      ⟨e.DRS4_USER, e.DRS4_HOST, e.DRS4_PASSWORD⟩ ∧
     resolveConn ⟨none, none, none⟩ e =
      ⟨e.DRS4_USER, e.DRS4_HOST, e.DRS4_PASSWORD⟩) ∧
    (∀ u h p : String, u ≠ "" → h ≠ "" → p ≠ "" →
      resolveConn ⟨some u, some h, some p⟩ e = ⟨some u, some h, some p⟩) ∧
    (∀ input_num integ_time,
      measure ⟨some "", some "", some ""⟩ e input_num integ_time =
        measure ⟨none, none, none⟩ e input_num integ_time) ∧
    (∀ now power_csv phase_csv signal_chan signal_SB input_num integ_time,
      download ⟨some "", some "", some ""⟩ e now power_csv phase_csv
          signal_chan signal_SB input_num integ_time =
        download ⟨none, none, none⟩ e now power_csv phase_csv
          signal_chan signal_SB input_num integ_time) := by
  have hr : resolveConn ⟨some "", some "", some ""⟩ e = resolveConn ⟨none, none, none⟩ e := rfl
  refine ⟨⟨rfl, rfl⟩, ?_, ?_, ?_⟩
  · intro u h p hu hh hp
    simp [resolveConn, orEnv, hu, hh, hp]
  · intro input_num integ_time
    simp only [measure, hr]
  · intro now power_csv phase_csv signal_chan signal_SB input_num integ_time
    simp only [download, hr]

/-- C10 witness: with all environment variables set, empty-string
arguments resolve to the environment values and non-empty arguments win. -/
theorem empty_string_credentials_fall_back_witness :
    resolveConn ⟨some "", some "", some ""⟩ ⟨some "eu", some "eh", some "ep"⟩ =
      ⟨some "eu", some "eh", some "ep"⟩ ∧
    resolveConn ⟨some "au", some "ah", some "ap"⟩ ⟨some "eu", some "eh", some "ep"⟩ =
      ⟨some "au", some "ah", some "ap"⟩ :=
  ⟨(empty_string_credentials_fall_back ⟨some "eu", some "eh", some "ep"⟩).1.1,
   (empty_string_credentials_fall_back ⟨some "eu", some "eh", some "ep"⟩).2.1
     "au" "ah" "ap" (by decide) (by decide) (by decide)⟩

/-- C2: whenever the power table and the phase table decode to different
row counts, the CSV-to-record step of `download` fails with the
schema-mismatch error — it never returns a record, so nothing is
truncated or misaligned. -/
theorem download_mismatched_rows_fail (a : ConnArgs) (e : EnvVars) (now : ℕ)
    (power_csv phase_csv : String) (signal_chan : ℤ) (signal_SB : String)
    (input_num integ_time : ℕ) (ta tc : Table) (cs : ColumnSet)
    (hdec : decodeColumns power_csv phase_csv = .ok (ta, tc, cs))
    (hne : ta.rows.length ≠ tc.rows.length) :
    download a e now power_csv phase_csv signal_chan signal_SB input_num integ_time =
      .error "SchemaMismatchError: conflicting sizes for dimension chan" := by
  obtain ⟨-, -, -, -, -, -, h1, h2, h3, h4⟩ := decodeColumns_ok hdec
  have h4' : cs.cross_2SB.length ≠ ta.rows.length := by rw [h4]; exact fun hh => hne hh.symm
  simp [download, hdec, DSBS.new, h1, h2, h3, h4', List.length_range]

/-- C2 witness: a two-row power table against a one-row phase table. -/
theorem download_mismatched_rows_fail_witness :
    download ⟨none, none, none⟩ ⟨none, none, none⟩ 0
        "freq[GHz],out0,out1\n90.0,1.5,2.5\n90.02,1.6,2.6\n" "real,imag\n0.1,0.2\n"
        0 "USB" 1 1000 =
      .error "SchemaMismatchError: conflicting sizes for dimension chan" :=
  download_mismatched_rows_fail ⟨none, none, none⟩ ⟨none, none, none⟩ 0
    "freq[GHz],out0,out1\n90.0,1.5,2.5\n90.02,1.6,2.6\n" "real,imag\n0.1,0.2\n"
    0 "USB" 1 1000
    ⟨["freq[GHz]".data, "out0".data, "out1".data],
     [["90.0".data, "1.5".data, "2.5".data], ["90.02".data, "1.6".data, "2.6".data]]⟩
    ⟨["real".data, "imag".data], [["0.1".data, "0.2".data]]⟩
    ⟨[⟨900, 1⟩, ⟨9002, 2⟩], [⟨15, 1⟩, ⟨16, 1⟩], [⟨25, 1⟩, ⟨26, 1⟩],
     [(⟨1, 1⟩, ⟨2, 1⟩)]⟩
    (by decide) (by decide)

/-- C5: on well-formed equal-length CSVs, `download` assembles the record
from the decoded columns — `freq` from power column `freq[GHz]`, USB/LSB
auto-correlations from `out0`/`out1`, the cross-correlation as the
row-wise pairing of `real` and `imag`, and `chan` equal to the dense
sequence `0..n-1` for `n` the power-table row count. -/
theorem download_assembles_record (a : ConnArgs) (e : EnvVars) (now : ℕ)
    (power_csv phase_csv : String) (signal_chan : ℤ) (signal_SB : String)
    (input_num integ_time : ℕ) (ta tc : Table) (cs : ColumnSet)
    (hdec : decodeColumns power_csv phase_csv = .ok (ta, tc, cs))
    (heq : ta.rows.length = tc.rows.length) :
    download a e now power_csv phase_csv signal_chan signal_SB input_num integ_time =
      .ok (fetchInvs (resolveConn a e),
        ⟨now, List.range ta.rows.length, signal_chan, signal_SB,
         cs.freq, cs.auto_USB, cs.auto_LSB, cs.cross_2SB, input_num, integ_time⟩) ∧
    numCol ta "freq[GHz]" = .ok cs.freq ∧
    numCol ta "out0" = .ok cs.auto_USB ∧
    numCol ta "out1" = .ok cs.auto_LSB ∧
    (∃ re im, numCol tc "real" = .ok re ∧ numCol tc "imag" = .ok im ∧
      cs.cross_2SB = List.zipWith Prod.mk re im) := by
  obtain ⟨-, -, hfr, ho0, ho1, hcross, h1, h2, h3, h4⟩ := decodeColumns_ok hdec
  have h4' : cs.cross_2SB.length = ta.rows.length := h4.trans heq.symm
  refine ⟨?_, hfr, ho0, ho1, hcross⟩
  simp [download, hdec, DSBS.new, h1, h2, h3, h4', List.length_range]

/-- C5 witness: the spec's two-row concrete scenario, with the decimal
values of the record spelled out as rationals. -/
theorem download_assembles_record_witness :
    download ⟨none, none, none⟩ ⟨none, none, none⟩ 0
        "freq[GHz],out0,out1\n90.0,1.5,2.5\n90.02,1.6,2.6\n"
        "real,imag\n0.1,0.2\n0.3,0.4\n" 0 "USB" 1 1000 =
      .ok (fetchInvs (resolveConn ⟨none, none, none⟩ ⟨none, none, none⟩),
        ⟨0, [0, 1], 0, "USB", [⟨900, 1⟩, ⟨9002, 2⟩], [⟨15, 1⟩, ⟨16, 1⟩],
         [⟨25, 1⟩, ⟨26, 1⟩], [(⟨1, 1⟩, ⟨2, 1⟩), (⟨3, 1⟩, ⟨4, 1⟩)], 1, 1000⟩) ∧
    ([⟨900, 1⟩, ⟨9002, 2⟩] : List Dec).map Dec.toRat = [90.0, 90.02] ∧
    ([⟨15, 1⟩, ⟨16, 1⟩] : List Dec).map Dec.toRat = [1.5, 1.6] ∧
    ([⟨25, 1⟩, ⟨26, 1⟩] : List Dec).map Dec.toRat = [2.5, 2.6] ∧
    ([(⟨1, 1⟩, ⟨2, 1⟩), (⟨3, 1⟩, ⟨4, 1⟩)] : List (Dec × Dec)).map
        (fun z => (z.1.toRat, z.2.toRat)) = [(0.1, 0.2), (0.3, 0.4)] := by
  have h := download_assembles_record ⟨none, none, none⟩ ⟨none, none, none⟩ 0
    "freq[GHz],out0,out1\n90.0,1.5,2.5\n90.02,1.6,2.6\n"
    "real,imag\n0.1,0.2\n0.3,0.4\n" 0 "USB" 1 1000
    ⟨["freq[GHz]".data, "out0".data, "out1".data],
     [["90.0".data, "1.5".data, "2.5".data], ["90.02".data, "1.6".data, "2.6".data]]⟩
    ⟨["real".data, "imag".data], [["0.1".data, "0.2".data], ["0.3".data, "0.4".data]]⟩
    ⟨[⟨900, 1⟩, ⟨9002, 2⟩], [⟨15, 1⟩, ⟨16, 1⟩], [⟨25, 1⟩, ⟨26, 1⟩],
     [(⟨1, 1⟩, ⟨2, 1⟩), (⟨3, 1⟩, ⟨4, 1⟩)]⟩
    (by decide) (by decide)
  refine ⟨?_, by norm_num [Dec.toRat], by norm_num [Dec.toRat],
    by norm_num [Dec.toRat], by norm_num [Dec.toRat]⟩
  rw [h.1]
  decide

/-- C6: merging the two per-sideband records fails with `MergeError`
whenever they differ in `signal_chan`, `input_num`, `integ_time` or
`chan` length; merging two valid same-channel USB/LSB records succeeds
with a `time` dimension of length 2 and `chan` unchanged. -/
theorem merge_requirements (a b : DSBS) :
    ((a.signal_chan ≠ b.signal_chan ∨ a.input_num ≠ b.input_num ∨
      a.integ_time ≠ b.integ_time ∨ a.chan.length ≠ b.chan.length) →
      mergeRecords a b = .error "MergeError") ∧
    (a.signal_chan = b.signal_chan → a.input_num = b.input_num →
      a.integ_time = b.integ_time → a.chan.length = b.chan.length →
      a.signal_SB = "USB" → b.signal_SB = "LSB" →
      ∃ m, mergeRecords a b = .ok m ∧ m.time.length = 2 ∧ m.chan = a.chan) := by
  constructor
  · intro h
    have hc : ¬(a.signal_chan = b.signal_chan ∧ a.input_num = b.input_num ∧
        a.integ_time = b.integ_time ∧ a.chan.length = b.chan.length) := by
      tauto
    simp [mergeRecords, hc]
  · intro h1 h2 h3 h4 _ _
    refine ⟨⟨[a.time, b.time], a.chan, [a.signal_chan, b.signal_chan],
      [a.signal_SB, b.signal_SB], [a.freq, b.freq], [a.auto_USB, b.auto_USB],
      [a.auto_LSB, b.auto_LSB], [a.cross_2SB, b.cross_2SB],
      a.input_num, a.integ_time⟩, ?_, rfl, rfl⟩
    simp [mergeRecords, h1, h2, h3, h4]

/-- C6 witness: two single-channel records that differ only in
`signal_chan` fail to merge; a valid USB/LSB pair merges into a record
with two time steps over the unchanged channel axis. -/
theorem merge_requirements_witness :
    mergeRecords ⟨0, [0], 3, "USB", [⟨1, 0⟩], [⟨1, 0⟩], [⟨1, 0⟩], [(⟨1, 0⟩, ⟨1, 0⟩)], 1, 1000⟩
        ⟨1, [0], 4, "LSB", [⟨2, 0⟩], [⟨2, 0⟩], [⟨2, 0⟩], [(⟨2, 0⟩, ⟨2, 0⟩)], 1, 1000⟩ =
      .error "MergeError" ∧
    ∃ m, mergeRecords
        ⟨0, [0], 3, "USB", [⟨1, 0⟩], [⟨1, 0⟩], [⟨1, 0⟩], [(⟨1, 0⟩, ⟨1, 0⟩)], 1, 1000⟩
        ⟨1, [0], 3, "LSB", [⟨2, 0⟩], [⟨2, 0⟩], [⟨2, 0⟩], [(⟨2, 0⟩, ⟨2, 0⟩)], 1, 1000⟩ =
      .ok m ∧ m.time.length = 2 ∧ m.chan = [0] :=
  ⟨(merge_requirements
      ⟨0, [0], 3, "USB", [⟨1, 0⟩], [⟨1, 0⟩], [⟨1, 0⟩], [(⟨1, 0⟩, ⟨1, 0⟩)], 1, 1000⟩
      ⟨1, [0], 4, "LSB", [⟨2, 0⟩], [⟨2, 0⟩], [⟨2, 0⟩], [(⟨2, 0⟩, ⟨2, 0⟩)], 1, 1000⟩).1
    (Or.inl (by decide)),
   (merge_requirements
      ⟨0, [0], 3, "USB", [⟨1, 0⟩], [⟨1, 0⟩], [⟨1, 0⟩], [(⟨1, 0⟩, ⟨1, 0⟩)], 1, 1000⟩
      ⟨1, [0], 3, "LSB", [⟨2, 0⟩], [⟨2, 0⟩], [⟨2, 0⟩], [(⟨2, 0⟩, ⟨2, 0⟩)], 1, 1000⟩).2
    rfl rfl rfl rfl rfl rfl⟩

end Drs4
